import Mathlib

/-!
Verification of the native bootstrap bridge in
`android/src/main/cpp/cpp-adapter.cpp`.

The translation unit is a single exported function:

```
JNIEXPORT jint JNICALL JNI_OnLoad(JavaVM *vm, void *) {
  __android_log_print(ANDROID_LOG_INFO, "AppUpdater", "JNI_OnLoad called! ...");
  return margelo::nitro::minhnc::appupdater::initialize(vm);
}
```

We embed it shallowly as a pure function parameterised over its two external
collaborators — the module registration routine (declared in
`AppUpdaterOnLoad.hpp`, out of scope per the spec) and the diagnostic sink
(`__android_log_print`).  Besides the returned status code the embedding
produces the ordered trace of observable events (diagnostic emission,
registration call), so that ordering, multiplicity and non-interference
properties can be stated.  A second, fault-aware embedding of the same body
models C++ exception propagation (the body contains no try/catch), and a
state-passing form over the translation unit's (empty) set of mutable
globals models repeated invocation.
-/

/-- A `JavaVM *` runtime handle, treated as an opaque pointer value; `none`
models the null pointer. -/
def JavaVMPtr : Type := Option Nat

instance : DecidableEq JavaVMPtr := inferInstanceAs (DecidableEq (Option Nat))

/-- The unnamed, reserved second argument of `JNI_OnLoad` (a `void *`),
likewise an opaque pointer value. -/
def Reserved : Type := Option Nat

/-- Android log priority `ANDROID_LOG_INFO` (value 4 in `android/log.h`). -/
def ANDROID_LOG_INFO : Nat := 4

/-- A diagnostic record as handed to `__android_log_print`: priority,
component tag and human-readable message. -/
structure LogRecord where
  prio : Nat
  tag : String
  msg : String
deriving DecidableEq

/-- The one diagnostic record the source emits, with the exact priority, tag
and message of the `__android_log_print` call in `cpp-adapter.cpp`. -/
def onLoadRecord : LogRecord :=
  { prio := ANDROID_LOG_INFO
    tag := "AppUpdater"
    msg := "JNI_OnLoad called! Initializing Nitro modules..." }

/-- Alphabet of observable events inside the load callback.  Besides the two
effects the source actually performs (diagnostic emission and the call to the
registration routine) the alphabet contains the effects a load callback could
in principle perform — suspension, blocking I/O, spawning background work —
so their absence from the trace is a statable property. -/
inductive Event : Type
  | log (rec : LogRecord)
  | callRegister (vm : JavaVMPtr)
  | suspendPoint
  | blockingIo
  | spawnWork
deriving DecidableEq

/-- True exactly on diagnostic-emission events. -/
def Event.isDiag : Event → Bool
  | Event.log _ => true
  | _ => false

/-- True exactly on registration-call events. -/
def Event.isRegCall : Event → Bool
  | Event.callRegister _ => true
  | _ => false

/-- True exactly on the asynchronous effects (suspension, blocking I/O,
spawned background work) that the spec forbids inside the load callback. -/
def Event.isAsyncEffect : Event → Bool
  | Event.suspendPoint => true
  | Event.blockingIo => true
  | Event.spawnWork => true
  | _ => false

/-- Type of the external module registration routine
(`margelo::nitro::minhnc::appupdater` namespace, declared in
`AppUpdaterOnLoad.hpp`): takes the runtime handle, returns a `jint` status. -/
def RegisterFn : Type := JavaVMPtr → Int

/-- Type of the diagnostic sink: models `__android_log_print` by its `int`
return value (the C API cannot throw); the source discards this value. -/
def DiagSink : Type := LogRecord → Int

/-- Shallow embedding of `JNI_OnLoad` from `cpp-adapter.cpp`: emit the
diagnostic record to the sink (its result is discarded, exactly as the source
ignores the return value of `__android_log_print`), then return the status
code of the registration routine applied to the handle.  The second component
is the ordered trace of observable events. -/
def JNI_OnLoad (registerModule : RegisterFn) (sink : DiagSink)
    (vm : JavaVMPtr) (reserved : Reserved) : Int × List Event :=
  let _ := sink onLoadRecord
  (registerModule vm, [Event.log onLoadRecord, Event.callRegister vm])

/-- A fault: a C++ exception (or other unrecoverable condition) signalled by
the registration routine, identified by its message. -/
abbrev Fault : Type := String

/-- Fault-aware type of the registration routine: it either returns a status
code normally or signals an unrecoverable fault. -/
def RegisterFnE : Type := JavaVMPtr → Except Fault Int

/-- Fault-aware embedding of the same `JNI_OnLoad` body.  The source wraps
the delegation in no try/catch, so a fault signalled by the registration
routine leaves `JNI_OnLoad` unchanged, crossing the host boundary; the
diagnostic sink is a C API and cannot fault. -/
def JNI_OnLoadE (registerModule : RegisterFnE) (sink : DiagSink)
    (vm : JavaVMPtr) (reserved : Reserved) : Except Fault (Int × List Event) :=
  let _ := sink onLoadRecord
  match registerModule vm with
  | Except.ok c => Except.ok (c, [Event.log onLoadRecord, Event.callRegister vm])
  | Except.error f => Except.error f

/-- The bridge's persistent state between invocations: `cpp-adapter.cpp`
declares no global or static mutable variable, so the state is empty. -/
def BridgeState : Type := Unit

/-- State-passing form of `JNI_OnLoad` over the bridge state, for stating
frame and repeated-invocation properties. -/
def JNI_OnLoadSt (registerModule : RegisterFn) (sink : DiagSink)
    (vm : JavaVMPtr) (reserved : Reserved) (s : BridgeState) :
    (Int × List Event) × BridgeState :=
  (JNI_OnLoad registerModule sink vm reserved, s)

/-- Two consecutive invocations of the entry point (a host that delivers the
load notification twice), threading the bridge state through. -/
def loadTwice (registerModule : RegisterFn) (sink : DiagSink)
    (vm1 vm2 : JavaVMPtr) (r1 r2 : Reserved) (s0 : BridgeState) :
    ((Int × List Event) × (Int × List Event)) × BridgeState :=
  let p1 := JNI_OnLoadSt registerModule sink vm1 r1 s0
  let p2 := JNI_OnLoadSt registerModule sink vm2 r2 p1.2
  ((p1.1, p2.1), p2.2)

/-- Claim C1: pass-through of the registration status.  For every runtime
handle (and every registration routine, sink and reserved argument), the
status code `JNI_OnLoad` returns is exactly the value the registration
routine returns for that handle — no translation, no swallowing, no
modification. -/
theorem onLoad_passThrough (registerModule : RegisterFn) (sink : DiagSink)
    (vm : JavaVMPtr) (r : Reserved) :
    (JNI_OnLoad registerModule sink vm r).1 = registerModule vm := rfl

/-- Claim C2, counterexample: the claim asserts that on a null handle the
entry point returns an immediate failure status without invoking the
registration routine.  On the code this is false: with a registration
routine that returns the success code 0 even for the null handle,
`JNI_OnLoad` applied to the null handle returns 0 — a success, not a failure
status — and its trace shows the registration routine was invoked with the
null handle. -/
theorem onLoad_null_shortCircuit_cex :
    (JNI_OnLoad (fun _ => 0) (fun _ => 0) none none).1 = 0 ∧
    Event.callRegister none ∈ (JNI_OnLoad (fun _ => 0) (fun _ => 0) none none).2 := by
  refine ⟨rfl, ?_⟩
  show Event.callRegister none ∈ [Event.log onLoadRecord, Event.callRegister none]
  exact List.Mem.tail _ (List.Mem.head _)

/-- Claim C2, amended: `JNI_OnLoad` performs no null check at all.  A null
handle is forwarded unchanged to the registration routine and the returned
status is whatever the registration routine returns for the null handle; the
bridge itself treats the handle opaquely (it never dereferences it, it only
passes it along). -/
theorem onLoad_null_forwarded (registerModule : RegisterFn) (sink : DiagSink)
    (r : Reserved) :
    JNI_OnLoad registerModule sink none r
      = (registerModule none,
         [Event.log onLoadRecord, Event.callRegister none]) := rfl

/-- Claim C3: diagnostic ordering and multiplicity.  On every invocation the
trace is exactly the diagnostic emission followed by the registration call —
so exactly one informational diagnostic record is emitted, and it is emitted
before the registration routine is invoked, for every registration routine
including ones that return a failure code. -/
theorem onLoad_diag_once_before (registerModule : RegisterFn) (sink : DiagSink)
    (vm : JavaVMPtr) (r : Reserved) :
    (JNI_OnLoad registerModule sink vm r).2.countP Event.isDiag = 1 ∧
    (JNI_OnLoad registerModule sink vm r).2
      = [Event.log onLoadRecord, Event.callRegister vm] := ⟨rfl, rfl⟩

/-- Claim C4: diagnostic non-interference.  For any two behaviours of the
diagnostic sink (including a sink that reports failure), the status code
returned by `JNI_OnLoad` is identical, and the registration routine is still
invoked with the supplied handle. -/
theorem onLoad_diag_noninterference (registerModule : RegisterFn)
    (sink1 sink2 : DiagSink) (vm : JavaVMPtr) (r : Reserved) :
    (JNI_OnLoad registerModule sink1 vm r).1
      = (JNI_OnLoad registerModule sink2 vm r).1 ∧
    Event.callRegister vm ∈ (JNI_OnLoad registerModule sink1 vm r).2 := by
  refine ⟨rfl, ?_⟩
  show Event.callRegister vm ∈ [Event.log onLoadRecord, Event.callRegister vm]
  exact List.Mem.tail _ (List.Mem.head _)

/-- Claim C5, counterexample: the claim asserts every internal fault,
including one signalled by the registration routine, is converted to a
failure status code before returning to the host.  On the code this is
false: the body has no try/catch, so with a registration routine that
signals a fault, `JNI_OnLoadE` propagates that very fault across the host
boundary and returns no status code at all. -/
theorem onLoadE_fault_propagates_cex :
    JNI_OnLoadE (fun _ => Except.error "registration fault") (fun _ => 0)
        (some 1) none
      = Except.error "registration fault" ∧
    (JNI_OnLoadE (fun _ => Except.error "registration fault") (fun _ => 0)
        (some 1) none).toOption = none := ⟨rfl, rfl⟩

/-- Claim C5, amended: the bridge adds no fault of its own and installs no
containment.  When the registration routine returns a status code normally,
`JNI_OnLoadE` returns that status code normally; when the registration
routine signals a fault, `JNI_OnLoadE` propagates exactly that fault
unchanged across the host boundary. -/
theorem onLoadE_bridge_adds_no_fault (registerModule : RegisterFnE)
    (sink : DiagSink) (vm : JavaVMPtr) (r : Reserved) :
    JNI_OnLoadE registerModule sink vm r
      = Except.map
          (fun c => (c, [Event.log onLoadRecord, Event.callRegister vm]))
          (registerModule vm) := by
  cases h : registerModule vm <;> simp [JNI_OnLoadE, Except.map, h]

/-- Claim C6: single delegation, no retry.  On every invocation the trace
contains exactly one registration-call event, its argument is the handle the
host supplied, and the returned status is the registration routine's value
with no retry, fallback or recovery — also when that value is a failure
code, since the theorem quantifies over every registration routine. -/
theorem onLoad_single_delegation (registerModule : RegisterFn)
    (sink : DiagSink) (vm : JavaVMPtr) (r : Reserved) :
    (JNI_OnLoad registerModule sink vm r).2.countP Event.isRegCall = 1 ∧
    Event.callRegister vm ∈ (JNI_OnLoad registerModule sink vm r).2 ∧
    (JNI_OnLoad registerModule sink vm r).1 = registerModule vm := by
  refine ⟨rfl, ?_, rfl⟩
  show Event.callRegister vm ∈ [Event.log onLoadRecord, Event.callRegister vm]
  exact List.Mem.tail _ (List.Mem.head _)

/-- Claim C7: statelessness of the bridge.  The translation unit declares no
mutable global, so in the state-passing form the bridge leaves its state
exactly as it found it, and its output is independent of the incoming state
— nothing, in particular no runtime handle, is retained past the call. -/
theorem onLoad_stateless (registerModule : RegisterFn) (sink : DiagSink)
    (vm : JavaVMPtr) (r : Reserved) (s s' : BridgeState) :
    (JNI_OnLoadSt registerModule sink vm r s).2 = s ∧
    (JNI_OnLoadSt registerModule sink vm r s).1
      = (JNI_OnLoadSt registerModule sink vm r s').1 := ⟨rfl, rfl⟩

/-- Claim C8: synchronous completion.  Given any (terminating) registration
routine and sink, `JNI_OnLoad` runs to completion with a defined result, and
every event in its trace is the diagnostic emission or the registration call
— no suspension, no blocking I/O, no spawned background work. -/
theorem onLoad_synchronous (registerModule : RegisterFn) (sink : DiagSink)
    (vm : JavaVMPtr) (r : Reserved) :
    JNI_OnLoad registerModule sink vm r
      = (registerModule vm,
         [Event.log onLoadRecord, Event.callRegister vm]) ∧
    ∀ e ∈ (JNI_OnLoad registerModule sink vm r).2,
      Event.isAsyncEffect e = false := by
  refine ⟨rfl, ?_⟩
  intro e he
  have h2 : e = Event.log onLoadRecord ∨ e = Event.callRegister vm := by
    simpa [JNI_OnLoad] using he
  rcases h2 with h | h <;> simp [h, Event.isAsyncEffect]

/-- Claim C9: repeated-invocation policy.  The entry point keeps no
already-registered guard: on a second consecutive invocation the diagnostic
emission and the registration routine are unconditionally re-run with the
handle supplied to that invocation, and the status returned is whatever the
registration routine returns on that second call. -/
theorem onLoad_second_invocation (registerModule : RegisterFn)
    (sink : DiagSink) (vm1 vm2 : JavaVMPtr) (r1 r2 : Reserved)
    (s0 : BridgeState) :
    (loadTwice registerModule sink vm1 vm2 r1 r2 s0).1.2
      = (registerModule vm2,
         [Event.log onLoadRecord, Event.callRegister vm2]) := rfl

/-- Claim C10: the reserved second parameter is ignored.  For any two values
of the reserved argument the entire result — status code and trace, hence
also the argument passed to the registration routine — is identical. -/
theorem onLoad_reserved_ignored (registerModule : RegisterFn)
    (sink : DiagSink) (vm : JavaVMPtr) (r1 r2 : Reserved) :
    JNI_OnLoad registerModule sink vm r1
      = JNI_OnLoad registerModule sink vm r2 := rfl
